import Mathlib

/-!
Verification of the public_news_api HTTP proxy (src/index.js).

The embedding models JavaScript values reaching the handlers as a small
JSON-like inductive type, the node-cache instance as an association list
from string keys to entries carrying an expiry instant, and each Express
route handler as a pure function from the query parameters, the cache
state, the current time and an upstream oracle to the produced HTTP
response, the new cache state and the list of upstream requests issued.

Fidelity notes, matching src/index.js line by line:
- query parameters arrive as `Option String` (an absent parameter is
  `none`; Express delivers present parameters as strings);
- template literals render an absent (undefined) parameter as the text
  "undefined";
- the cache-hit test is the JavaScript truthiness test `if (cachedData)`,
  not a presence test, exactly as in the source;
- axios omits a query parameter whose value is undefined, so the find
  handler omits `q` when `title` is absent;
- a thrown TypeError from a property access on null or undefined, or from
  calling .map on a non-array, lands in the catch block of the handler,
  which responds 500 with the fixed endpoint message.
-/

namespace PublicNewsApi

/-- JavaScript values reaching the handlers, at JSON granularity plus
the distinguished `undefined`. -/
inductive Json where
  | undefined : Json
  | null : Json
  | bool : Bool → Json
  | str : String → Json
  | num : Int → Json
  | arr : List Json → Json
  | obj : List (String × Json) → Json

/-- JavaScript truthiness of a value, as tested by `if (cachedData)` and
by `author ? ... : ...` in src/index.js. -/
def Json.truthy : Json → Bool
  | .undefined => false
  | .null => false
  | .bool b => b
  | .str s => s != ""
  | .num n => n != 0
  | .arr _ => true
  | .obj _ => true

/-- JavaScript property access `v[k]`: on an object, the field value or
undefined when the field is missing; on null or undefined a TypeError is
thrown (`none`); on any other value the result is undefined. -/
def Json.getField : Json → String → Option Json
  | .obj fields, k =>
      some (match fields.find? (fun p => p.1 == k) with
            | some p => p.2
            | none => .undefined)
  | .null, _ => none
  | .undefined, _ => none
  | _, _ => some .undefined

/-- Rendering of an optional query parameter inside a template literal:
`undefined` stringifies to the literal text "undefined". -/
def templateStr : Option String → String
  | some s => s
  | none => "undefined"

/-- The fixed stdTTL of the node-cache instance, in seconds
(src/index.js line 10). -/
def stdTTL : Nat := 600

/-- One cache entry: the stored value and the instant it expires. -/
structure CacheEntry where
  value : Json
  expiresAt : Nat

/-- The node-cache store: keys to entries. -/
abbrev Cache := List (String × CacheEntry)

/-- `cache.get(key)` at instant `now`: the stored value when present and
unexpired, otherwise absence. -/
def Cache.get (c : Cache) (key : String) (now : Nat) : Option Json :=
  match c.find? (fun p => p.1 == key) with
  | some p => if now < p.2.expiresAt then some p.2.value else none
  | none => none

/-- `cache.get(key)` as observed by the JavaScript caller: node-cache
returns `undefined` when the key is absent or expired. -/
def Cache.jsGet (c : Cache) (key : String) (now : Nat) : Json :=
  match c.get key now with
  | some v => v
  | none => .undefined

/-- `cache.set(key, value)` at instant `now`: stores the value under the
key with the default TTL, overwriting any previous entry. -/
def Cache.set (c : Cache) (key : String) (v : Json) (now : Nat) : Cache :=
  (key, ⟨v, now + stdTTL⟩) :: c

/-- An outbound axios GET: URL and the query parameters actually sent
(axios drops parameters whose value is undefined). -/
structure UpstreamRequest where
  url : String
  params : List (String × String)
  deriving Repr, DecidableEq

/-- The upstream provider as an oracle: a request either throws (network
or HTTP failure, `Except.error`) or yields `response.data`. -/
abbrev Upstream := UpstreamRequest → Except Unit Json

/-- An HTTP response produced by a handler: status code and JSON body. -/
structure HttpResponse where
  status : Nat
  body : Json

/-- The observable outcome of one handler run: the response, the cache
state afterwards, and the upstream requests issued during the run. -/
structure HandlerResult where
  response : HttpResponse
  cache : Cache
  upstreamCalls : List UpstreamRequest

/-- Cache key of GET /news (line 68): `news-` followed by the parameter
`n`, which defaults to 10. -/
def newsKey (n : Option String) : String := "news-" ++ n.getD "10"

/-- Cache key of GET /news/find (line 141): `news-find-` followed by the
title and the author, each rendered as in a template literal. -/
def findKey (title author : Option String) : String :=
  "news-find-" ++ templateStr title ++ "-" ++ templateStr author

/-- Cache key of GET /news/search (line 204). -/
def searchKey (keyword : String) : String := "news-search-" ++ keyword

/-- The upstream request issued by GET /news on a cache miss
(lines 76-82). -/
def newsRequest (apiKey : String) (n : Option String) : UpstreamRequest :=
  ⟨"https://gnews.io/api/v4/top-headlines",
   [("token", apiKey), ("lang", "en"), ("max", n.getD "10")]⟩

/-- The value of the `in` parameter sent by GET /news/find (line 153):
the template literal `title` followed by `&author=` and the author when
the author is truthy. -/
def findInParam (author : Option String) : String :=
  "title" ++
    (match author with
     | some a => if a != "" then "&author=" ++ a else ""
     | none => "")

/-- The upstream request issued by GET /news/find on a cache miss
(lines 147-155); axios omits `q` when the title is undefined. -/
def findRequest (apiKey : String) (title author : Option String) :
    UpstreamRequest :=
  ⟨"https://gnews.io/api/v4/search",
   (match title with
    | some t => [("q", t)]
    | none => []) ++
   [("token", apiKey), ("lang", "en"), ("max", "1"),
    ("in", findInParam author)]⟩

/-- The upstream request issued by GET /news/search on a cache miss
(lines 210-215). -/
def searchRequest (apiKey keyword : String) : UpstreamRequest :=
  ⟨"https://gnews.io/api/v4/search",
   [("q", keyword), ("token", apiKey)]⟩

/-- The reshaping of one upstream record in GET /news (lines 84-94):
the object literal keeps exactly title, description, url, image,
publishedAt and a source object with name and url; `none` models the
TypeError thrown when the record or its source is null or undefined. -/
def mapArticle (a : Json) : Option Json := do
  let title ← a.getField "title"
  let description ← a.getField "description"
  let url ← a.getField "url"
  let image ← a.getField "image"
  let publishedAt ← a.getField "publishedAt"
  let source ← a.getField "source"
  let sourceName ← source.getField "name"
  let sourceUrl ← source.getField "url"
  pure (.obj [("title", title), ("description", description),
              ("url", url), ("image", image),
              ("publishedAt", publishedAt),
              ("source", .obj [("name", sourceName), ("url", sourceUrl)])])

/-- GET /news (lines 66-104). -/
def newsHandler (upstream : Upstream) (apiKey : String)
    (n : Option String) (cache : Cache) (now : Nat) : HandlerResult :=
  let cacheKey := newsKey n
  let cachedData := cache.jsGet cacheKey now
  if cachedData.truthy then
    ⟨⟨200, cachedData⟩, cache, []⟩
  else
    let req := newsRequest apiKey n
    match upstream req with
    | .error _ =>
        ⟨⟨500, .obj [("message", .str "Something went wrong")]⟩,
         cache, [req]⟩
    | .ok respData =>
        match respData.getField "articles" with
        | some (.arr articles) =>
            match articles.mapM mapArticle with
            | some mapped =>
                ⟨⟨200, .arr mapped⟩,
                 cache.set cacheKey (.arr mapped) now, [req]⟩
            | none =>
                ⟨⟨500, .obj [("message", .str "Something went wrong")]⟩,
                 cache, [req]⟩
        | some _ =>
            ⟨⟨500, .obj [("message", .str "Something went wrong")]⟩,
             cache, [req]⟩
        | none =>
            ⟨⟨500, .obj [("message", .str "Something went wrong")]⟩,
             cache, [req]⟩

/-- GET /news/find (lines 139-165). -/
def findHandler (upstream : Upstream) (apiKey : String)
    (title author : Option String) (cache : Cache) (now : Nat) :
    HandlerResult :=
  let cacheKey := findKey title author
  let cached := cache.jsGet cacheKey now
  if cached.truthy then
    ⟨⟨200, .obj [("articles", cached)]⟩, cache, []⟩
  else
    let req := findRequest apiKey title author
    match upstream req with
    | .error _ =>
        ⟨⟨500, .obj [("message", .str "Failed to find news article")]⟩,
         cache, [req]⟩
    | .ok respData =>
        match respData.getField "articles" with
        | some articles =>
            ⟨⟨200, .obj [("articles", articles)]⟩,
             cache.set cacheKey articles now, [req]⟩
        | none =>
            ⟨⟨500, .obj [("message", .str "Failed to find news article")]⟩,
             cache, [req]⟩

/-- GET /news/search (lines 196-225). -/
def searchHandler (upstream : Upstream) (apiKey : String)
    (keyword : Option String) (cache : Cache) (now : Nat) :
    HandlerResult :=
  match keyword with
  | none =>
      ⟨⟨400, .obj [("message", .str "Missing search query")]⟩, cache, []⟩
  | some kw =>
      if kw == "" then
        ⟨⟨400, .obj [("message", .str "Missing search query")]⟩, cache, []⟩
      else
        let cacheKey := searchKey kw
        let cached := cache.jsGet cacheKey now
        if cached.truthy then
          ⟨⟨200, .obj [("articles", cached)]⟩, cache, []⟩
        else
          let req := searchRequest apiKey kw
          match upstream req with
          | .error _ =>
              ⟨⟨500, .obj [("message",
                            .str "Failed to fetch news articles")]⟩,
               cache, [req]⟩
          | .ok respData =>
              match respData.getField "articles" with
              | some articles =>
                  ⟨⟨200, .obj [("articles", articles)]⟩,
                   cache.set cacheKey articles now, [req]⟩
              | none =>
                  ⟨⟨500, .obj [("message",
                                .str "Failed to fetch news articles")]⟩,
                   cache, [req]⟩

/-! ### Concrete sample values used by witnesses and counterexamples -/

/-- A sample upstream record carrying the six documented fields plus an
extra field that the /news reshaping must drop. -/
def sampleArticle : Json :=
  .obj [("title", .str "T"), ("description", .str "D"),
        ("url", .str "U"), ("image", .str "I"),
        ("publishedAt", .str "P"),
        ("source", .obj [("name", .str "S"), ("url", .str "V")]),
        ("content", .str "EXTRA")]

/-- The reshaping of `sampleArticle`: the six documented fields only. -/
def sampleMapped : Json :=
  .obj [("title", .str "T"), ("description", .str "D"),
        ("url", .str "U"), ("image", .str "I"),
        ("publishedAt", .str "P"),
        ("source", .obj [("name", .str "S"), ("url", .str "V")])]

/-- A sample upstream response body with one article. -/
def sampleData : Json := .obj [("articles", .arr [sampleArticle])]

/-- An upstream oracle that always succeeds with `sampleData`. -/
def sampleUpstream : Upstream := fun _ => .ok sampleData

/-- An upstream oracle that always throws. -/
def failUpstream : Upstream := fun _ => .error ()

/-- An upstream oracle whose response has an empty string in place of
the articles array: the value the find and search handlers then cache is
falsy. -/
def emptyStrUpstream : Upstream := fun _ => .ok (.obj [("articles", .str "")])

/-- A cache holding a truthy unexpired entry under the default /news key. -/
def newsHitCache : Cache := [("news-10", ⟨Json.arr [], 600⟩)]

/-- A cache holding a truthy unexpired entry under the /news/find key for
title T and absent author. -/
def findHitCache : Cache := [("news-find-T-undefined", ⟨Json.arr [], 600⟩)]

/-- A cache holding a truthy unexpired entry under the /news/search key
for keyword x. -/
def searchHitCache : Cache := [("news-search-x", ⟨Json.arr [], 600⟩)]

/-! ### Cache lemmas -/

/-- A falsy cache read stays falsy at any later instant: entries only
expire, and a stored falsy value stays falsy. -/
theorem jsGet_truthy_mono (c : Cache) (key : String) (t1 t2 : Nat)
    (hle : t1 ≤ t2) (h : (c.jsGet key t1).truthy = false) :
    (c.jsGet key t2).truthy = false := by
  unfold Cache.jsGet Cache.get at *
  cases hfind : c.find? (fun p => p.1 == key) with
  | none => simp [hfind, Json.truthy]
  | some p =>
      simp only [hfind] at h ⊢
      by_cases h2 : t2 < p.2.expiresAt
      · have h1 : t1 < p.2.expiresAt := lt_of_le_of_lt hle h2
        simp only [if_pos h1] at h
        simp [if_pos h2, h]
      · simp [if_neg h2, Json.truthy]

/-- Reading a key just written: the stored value while within the TTL,
undefined afterwards. -/
theorem jsGet_set_same (c : Cache) (key : String) (v : Json) (t1 t2 : Nat) :
    (c.set key v t1).jsGet key t2 = if t2 < t1 + stdTTL then v else .undefined := by
  unfold Cache.set Cache.jsGet Cache.get
  rw [List.find?_cons_of_pos _ (by simp)]
  by_cases h : t2 < t1 + stdTTL
  · simp [h]
  · simp [h]

/-! ### Path lemmas for GET /news -/

/-- On a truthy cache read, GET /news serves the cached value with no
upstream call and no cache write. -/
theorem news_hit (upstream : Upstream) (k : String) (n : Option String)
    (c : Cache) (now : Nat)
    (h : (c.jsGet (newsKey n) now).truthy = true) :
    newsHandler upstream k n c now =
      ⟨⟨200, c.jsGet (newsKey n) now⟩, c, []⟩ := by
  unfold newsHandler
  simp [h]

/-- On a miss with a successful upstream call whose articles field is an
array that reshapes without throwing, GET /news returns the reshaped
list, caches it, and issues exactly the one upstream request. -/
theorem news_miss_success (upstream : Upstream) (k : String)
    (n : Option String) (c : Cache) (now : Nat) (d : Json)
    (l mapped : List Json)
    (hmiss : (c.jsGet (newsKey n) now).truthy = false)
    (hok : upstream (newsRequest k n) = .ok d)
    (hart : d.getField "articles" = some (.arr l))
    (hmap : l.mapM mapArticle = some mapped) :
    newsHandler upstream k n c now =
      ⟨⟨200, .arr mapped⟩, c.set (newsKey n) (.arr mapped) now,
       [newsRequest k n]⟩ := by
  unfold newsHandler
  simp only [hmiss, Bool.false_eq_true, if_false, hok, hart, hmap]

/-- On a miss with a throwing upstream call, GET /news responds 500 with
its fixed message and leaves the cache unchanged. -/
theorem news_miss_error (upstream : Upstream) (k : String)
    (n : Option String) (c : Cache) (now : Nat)
    (hmiss : (c.jsGet (newsKey n) now).truthy = false)
    (herr : upstream (newsRequest k n) = .error ()) :
    newsHandler upstream k n c now =
      ⟨⟨500, .obj [("message", .str "Something went wrong")]⟩, c,
       [newsRequest k n]⟩ := by
  unfold newsHandler
  simp only [hmiss, Bool.false_eq_true, if_false, herr]

/-- On a miss, GET /news either leaves the cache unchanged or ends in the
success path that cached the reshaped list. -/
theorem news_cases (upstream : Upstream) (k : String)
    (n : Option String) (c : Cache) (t1 : Nat)
    (hmiss : (c.jsGet (newsKey n) t1).truthy = false) :
    ((newsHandler upstream k n c t1).cache = c)
  ∨ (∃ mapped, newsHandler upstream k n c t1 =
       ⟨⟨200, .arr mapped⟩, c.set (newsKey n) (.arr mapped) t1,
        [newsRequest k n]⟩) := by
  unfold newsHandler
  simp only [hmiss, Bool.false_eq_true, if_false]
  cases hup : upstream (newsRequest k n) with
  | error e => left; rfl
  | ok d =>
      cases hart : d.getField "articles" with
      | none => left; simp only [hart]
      | some j =>
          cases j with
          | arr l =>
              cases hmap : l.mapM mapArticle with
              | none => left; simp only [hart, hmap]
              | some mapped =>
                  right; exact ⟨mapped, by simp only [hart, hmap]⟩
          | undefined => left; simp only [hart]
          | null => left; simp only [hart]
          | bool b => left; simp only [hart]
          | str s => left; simp only [hart]
          | num m => left; simp only [hart]
          | obj fs => left; simp only [hart]

/-- Repeating a GET /news request after a miss: if the second read of the
key is truthy, the second run returns the first response with no
upstream call, and the first run issued exactly one. -/
theorem news_pair (upstream : Upstream) (k : String) (n : Option String)
    (c : Cache) (t1 t2 : Nat)
    (hmiss : (c.jsGet (newsKey n) t1).truthy = false)
    (hle : t1 ≤ t2)
    (htr : ((newsHandler upstream k n c t1).cache.jsGet (newsKey n)
              t2).truthy = true) :
    (newsHandler upstream k n (newsHandler upstream k n c t1).cache
        t2).response = (newsHandler upstream k n c t1).response
    ∧ (newsHandler upstream k n (newsHandler upstream k n c t1).cache
        t2).upstreamCalls = []
    ∧ (newsHandler upstream k n c t1).upstreamCalls.length = 1 := by
  rcases news_cases upstream k n c t1 hmiss with hsame | ⟨mapped, h1⟩
  · rw [hsame] at htr
    rw [jsGet_truthy_mono c (newsKey n) t1 t2 hle hmiss] at htr
    exact absurd htr (by simp)
  · rw [h1] at htr ⊢
    simp only at htr ⊢
    rw [jsGet_set_same] at htr
    by_cases hwin : t2 < t1 + stdTTL
    · have hget : ((c.set (newsKey n) (.arr mapped) t1).jsGet (newsKey n)
          t2) = .arr mapped := by rw [jsGet_set_same]; simp [hwin]
      have h2 := news_hit upstream k n
        (c.set (newsKey n) (.arr mapped) t1) t2
        (by rw [hget]; rfl)
      rw [h2, hget]
      exact ⟨rfl, rfl, rfl⟩
    · rw [if_neg hwin] at htr
      exact absurd htr (by simp [Json.truthy])

/-- GET /news with no n parameter behaves exactly as with n set to the
text 10: the destructuring default. -/
theorem news_default (upstream : Upstream) (k : String) (c : Cache)
    (now : Nat) :
    newsHandler upstream k none c now =
      newsHandler upstream k (some "10") c now := rfl

/-- GET /news only ever responds 200 or 500; no input is rejected. -/
theorem news_status (upstream : Upstream) (k : String) (n : Option String)
    (c : Cache) (now : Nat) :
    (newsHandler upstream k n c now).response.status = 200
    ∨ (newsHandler upstream k n c now).response.status = 500 := by
  unfold newsHandler
  by_cases h : (Cache.jsGet c (newsKey n) now).truthy
  · simp [h]
  · simp only [h, Bool.false_eq_true, if_false]
    cases hup : upstream (newsRequest k n) with
    | error e => simp
    | ok d =>
        cases hart : d.getField "articles" with
        | none => simp [hart]
        | some j =>
            cases j with
            | arr l =>
                cases hmap : l.mapM mapArticle with
                | none => right; simp only [hart, hmap]
                | some mapped => left; simp only [hart, hmap]
            | undefined => simp [hart]
            | null => simp [hart]
            | bool b => simp [hart]
            | str s => simp [hart]
            | num m => simp [hart]
            | obj fs => simp [hart]

/-- Every run of GET /news issues no upstream request or exactly the one
built from n as given. -/
theorem news_calls (upstream : Upstream) (k : String) (n : Option String)
    (c : Cache) (now : Nat) :
    (newsHandler upstream k n c now).upstreamCalls = []
    ∨ (newsHandler upstream k n c now).upstreamCalls =
        [newsRequest k n] := by
  unfold newsHandler
  by_cases h : (Cache.jsGet c (newsKey n) now).truthy
  · simp [h]
  · simp only [h, Bool.false_eq_true, if_false]
    cases hup : upstream (newsRequest k n) with
    | error e => simp
    | ok d =>
        cases hart : d.getField "articles" with
        | none => simp [hart]
        | some j =>
            cases j with
            | arr l =>
                cases hmap : l.mapM mapArticle with
                | none => right; simp only [hart, hmap]
                | some mapped => right; simp only [hart, hmap]
            | undefined => simp [hart]
            | null => simp [hart]
            | bool b => simp [hart]
            | str s => simp [hart]
            | num m => simp [hart]
            | obj fs => simp [hart]

/-- The shape of one reshaped /news article: exactly the six documented
fields, each taken from the upstream record, the source restricted to
name and url. -/
theorem mapArticle_shape (a m : Json) (hm : mapArticle a = some m) :
    ∃ t d u i p sn su src,
      a.getField "title" = some t
      ∧ a.getField "description" = some d
      ∧ a.getField "url" = some u
      ∧ a.getField "image" = some i
      ∧ a.getField "publishedAt" = some p
      ∧ a.getField "source" = some src
      ∧ src.getField "name" = some sn
      ∧ src.getField "url" = some su
      ∧ m = .obj [("title", t), ("description", d), ("url", u),
                  ("image", i), ("publishedAt", p),
                  ("source", .obj [("name", sn), ("url", su)])] := by
  simp only [mapArticle, Option.bind_eq_some, Option.pure_def,
    Option.some.injEq, bind, Option.bind_eq_some] at hm
  obtain ⟨t, h1, d, h2, u, h3, i, h4, p, h5, src, h6, sn, h7, su, h8, h9⟩ :=
    hm
  exact ⟨t, d, u, i, p, sn, su, src, h1, h2, h3, h4, h5, h6, h7, h8,
    h9.symm⟩

/-! ### Path lemmas for GET /news/find -/

/-- On a truthy cache read, GET /news/find serves the cached value
wrapped under articles, with no upstream call and no cache write. -/
theorem find_hit (upstream : Upstream) (k : String)
    (title author : Option String) (c : Cache) (now : Nat)
    (h : (c.jsGet (findKey title author) now).truthy = true) :
    findHandler upstream k title author c now =
      ⟨⟨200, .obj [("articles", c.jsGet (findKey title author) now)]⟩,
       c, []⟩ := by
  unfold findHandler
  simp [h]

/-- On a miss with a successful upstream call, GET /news/find wraps the
raw articles value, caches that same value, and issues exactly the one
upstream request. -/
theorem find_miss_success (upstream : Upstream) (k : String)
    (title author : Option String) (c : Cache) (now : Nat)
    (d v : Json)
    (hmiss : (c.jsGet (findKey title author) now).truthy = false)
    (hok : upstream (findRequest k title author) = .ok d)
    (hart : d.getField "articles" = some v) :
    findHandler upstream k title author c now =
      ⟨⟨200, .obj [("articles", v)]⟩,
       c.set (findKey title author) v now,
       [findRequest k title author]⟩ := by
  unfold findHandler
  simp only [hmiss, Bool.false_eq_true, if_false, hok, hart]

/-- On a miss with a throwing upstream call, GET /news/find responds 500
with its fixed message and leaves the cache unchanged. -/
theorem find_miss_error (upstream : Upstream) (k : String)
    (title author : Option String) (c : Cache) (now : Nat)
    (hmiss : (c.jsGet (findKey title author) now).truthy = false)
    (herr : upstream (findRequest k title author) = .error ()) :
    findHandler upstream k title author c now =
      ⟨⟨500, .obj [("message", .str "Failed to find news article")]⟩, c,
       [findRequest k title author]⟩ := by
  unfold findHandler
  simp only [hmiss, Bool.false_eq_true, if_false, herr]

/-- On a miss, GET /news/find either leaves the cache unchanged or ends
in the success path that cached the raw articles value. -/
theorem find_cases (upstream : Upstream) (k : String)
    (title author : Option String) (c : Cache) (t1 : Nat)
    (hmiss : (c.jsGet (findKey title author) t1).truthy = false) :
    ((findHandler upstream k title author c t1).cache = c)
  ∨ (∃ v, findHandler upstream k title author c t1 =
       ⟨⟨200, .obj [("articles", v)]⟩,
        c.set (findKey title author) v t1,
        [findRequest k title author]⟩) := by
  unfold findHandler
  simp only [hmiss, Bool.false_eq_true, if_false]
  cases hup : upstream (findRequest k title author) with
  | error e => left; rfl
  | ok d =>
      cases hart : d.getField "articles" with
      | none => left; simp only [hart]
      | some v => right; exact ⟨v, by simp only [hart]⟩

/-- On a miss, GET /news/find issues exactly the one upstream request
built from the title and the author as given. -/
theorem find_calls (upstream : Upstream) (k : String)
    (title author : Option String) (c : Cache) (now : Nat)
    (hmiss : (c.jsGet (findKey title author) now).truthy = false) :
    (findHandler upstream k title author c now).upstreamCalls =
      [findRequest k title author] := by
  unfold findHandler
  simp only [hmiss, Bool.false_eq_true, if_false]
  cases hup : upstream (findRequest k title author) with
  | error e => rfl
  | ok d =>
      cases hart : d.getField "articles" with
      | none => simp only [hart]
      | some v => simp only [hart]

/-- Repeating a GET /news/find request after a miss: if the second read
of the key is truthy, the second run returns the first response with no
upstream call, and the first run issued exactly one. -/
theorem find_pair (upstream : Upstream) (k : String)
    (title author : Option String) (c : Cache) (t1 t2 : Nat)
    (hmiss : (c.jsGet (findKey title author) t1).truthy = false)
    (hle : t1 ≤ t2)
    (htr : ((findHandler upstream k title author c t1).cache.jsGet
              (findKey title author) t2).truthy = true) :
    (findHandler upstream k title author
        (findHandler upstream k title author c t1).cache t2).response
      = (findHandler upstream k title author c t1).response
    ∧ (findHandler upstream k title author
        (findHandler upstream k title author c t1).cache
        t2).upstreamCalls = []
    ∧ (findHandler upstream k title author c t1).upstreamCalls.length
        = 1 := by
  rcases find_cases upstream k title author c t1 hmiss with hsame | ⟨v, h1⟩
  · rw [hsame] at htr
    rw [jsGet_truthy_mono c (findKey title author) t1 t2 hle hmiss] at htr
    exact absurd htr (by simp)
  · rw [h1] at htr ⊢
    simp only at htr ⊢
    rw [jsGet_set_same] at htr
    by_cases hwin : t2 < t1 + stdTTL
    · rw [if_pos hwin] at htr
      have hget : ((c.set (findKey title author) v t1).jsGet
          (findKey title author) t2) = v := by
        rw [jsGet_set_same]; simp [hwin]
      have h2 := find_hit upstream k title author
        (c.set (findKey title author) v t1) t2 (by rw [hget]; exact htr)
      rw [h2, hget]
      exact ⟨rfl, rfl, rfl⟩
    · rw [if_neg hwin] at htr
      exact absurd htr (by simp [Json.truthy])

/-- The rendering of the `in` parameter of GET /news/find: `title` when
the author is absent or empty, `title&author=` followed by the author
when the author is nonempty. -/
theorem findInParam_rendering (a : String) :
    findInParam none = "title"
    ∧ findInParam (some "") = "title"
    ∧ (a ≠ "" → findInParam (some a) = "title&author=" ++ a) := by
  refine ⟨rfl, rfl, fun ha => ?_⟩
  have hb : (a != "") = true := by simp [ha]
  unfold findInParam
  simp only [hb, if_true]
  rw [← String.append_assoc]
  rfl

/-! ### Path lemmas for GET /news/search -/

/-- GET /news/search with no keyword: 400, fixed body, cache untouched,
no upstream call. -/
theorem search_guard_absent (upstream : Upstream) (k : String)
    (c : Cache) (now : Nat) :
    searchHandler upstream k none c now =
      ⟨⟨400, .obj [("message", .str "Missing search query")]⟩, c, []⟩ :=
  rfl

/-- GET /news/search with an empty keyword takes the same 400 branch:
the guard is a truthiness test. -/
theorem search_guard_empty (upstream : Upstream) (k : String)
    (c : Cache) (now : Nat) :
    searchHandler upstream k (some "") c now =
      ⟨⟨400, .obj [("message", .str "Missing search query")]⟩, c, []⟩ :=
  rfl

/-- On a truthy cache read, GET /news/search serves the cached value
wrapped under articles, with no upstream call and no cache write. -/
theorem search_hit (upstream : Upstream) (k kw : String)
    (c : Cache) (now : Nat) (hkw : kw ≠ "")
    (h : (c.jsGet (searchKey kw) now).truthy = true) :
    searchHandler upstream k (some kw) c now =
      ⟨⟨200, .obj [("articles", c.jsGet (searchKey kw) now)]⟩, c, []⟩ := by
  unfold searchHandler
  simp [hkw, h]

/-- On a miss with a successful upstream call, GET /news/search wraps
the raw articles value, caches that same value, and issues exactly the
one upstream request. -/
theorem search_miss_success (upstream : Upstream) (k kw : String)
    (c : Cache) (now : Nat) (d v : Json) (hkw : kw ≠ "")
    (hmiss : (c.jsGet (searchKey kw) now).truthy = false)
    (hok : upstream (searchRequest k kw) = .ok d)
    (hart : d.getField "articles" = some v) :
    searchHandler upstream k (some kw) c now =
      ⟨⟨200, .obj [("articles", v)]⟩, c.set (searchKey kw) v now,
       [searchRequest k kw]⟩ := by
  unfold searchHandler
  have hkwb : (kw == "") = false := by simp [hkw]
  simp only [hkwb, Bool.false_eq_true, if_false, hmiss, hok, hart]

/-- On a miss with a throwing upstream call, GET /news/search responds
500 with its fixed message and leaves the cache unchanged. -/
theorem search_miss_error (upstream : Upstream) (k kw : String)
    (c : Cache) (now : Nat) (hkw : kw ≠ "")
    (hmiss : (c.jsGet (searchKey kw) now).truthy = false)
    (herr : upstream (searchRequest k kw) = .error ()) :
    searchHandler upstream k (some kw) c now =
      ⟨⟨500, .obj [("message", .str "Failed to fetch news articles")]⟩,
       c, [searchRequest k kw]⟩ := by
  unfold searchHandler
  have hkwb : (kw == "") = false := by simp [hkw]
  simp only [hkwb, Bool.false_eq_true, if_false, hmiss, herr]

/-- With a nonempty keyword, GET /news/search never takes the 400
branch. -/
theorem search_status (upstream : Upstream) (k kw : String)
    (c : Cache) (now : Nat) (hkw : kw ≠ "") :
    (searchHandler upstream k (some kw) c now).response.status ≠ 400 := by
  unfold searchHandler
  have hkwb : (kw == "") = false := by simp [hkw]
  simp only [hkwb, Bool.false_eq_true, if_false]
  by_cases h : (Cache.jsGet c (searchKey kw) now).truthy
  · simp [h]
  · simp only [h, Bool.false_eq_true, if_false]
    cases hup : upstream (searchRequest k kw) with
    | error e => simp
    | ok d =>
        cases hart : d.getField "articles" with
        | none => simp [hart]
        | some v => simp [hart]

/-- On a miss, GET /news/search either leaves the cache unchanged or
ends in the success path that cached the raw articles value. -/
theorem search_cases (upstream : Upstream) (k kw : String)
    (c : Cache) (t1 : Nat) (hkw : kw ≠ "")
    (hmiss : (c.jsGet (searchKey kw) t1).truthy = false) :
    ((searchHandler upstream k (some kw) c t1).cache = c)
  ∨ (∃ v, searchHandler upstream k (some kw) c t1 =
       ⟨⟨200, .obj [("articles", v)]⟩, c.set (searchKey kw) v t1,
        [searchRequest k kw]⟩) := by
  unfold searchHandler
  have hkwb : (kw == "") = false := by simp [hkw]
  simp only [hkwb, Bool.false_eq_true, if_false, hmiss]
  cases hup : upstream (searchRequest k kw) with
  | error e => left; rfl
  | ok d =>
      cases hart : d.getField "articles" with
      | none => left; simp only [hart]
      | some v => right; exact ⟨v, by simp only [hart]⟩

/-- Repeating a GET /news/search request after a miss: if the second
read of the key is truthy, the second run returns the first response
with no upstream call, and the first run issued exactly one. -/
theorem search_pair (upstream : Upstream) (k kw : String)
    (c : Cache) (t1 t2 : Nat) (hkw : kw ≠ "")
    (hmiss : (c.jsGet (searchKey kw) t1).truthy = false)
    (hle : t1 ≤ t2)
    (htr : ((searchHandler upstream k (some kw) c t1).cache.jsGet
              (searchKey kw) t2).truthy = true) :
    (searchHandler upstream k (some kw)
        (searchHandler upstream k (some kw) c t1).cache t2).response
      = (searchHandler upstream k (some kw) c t1).response
    ∧ (searchHandler upstream k (some kw)
        (searchHandler upstream k (some kw) c t1).cache
        t2).upstreamCalls = []
    ∧ (searchHandler upstream k (some kw) c t1).upstreamCalls.length
        = 1 := by
  rcases search_cases upstream k kw c t1 hkw hmiss with hsame | ⟨v, h1⟩
  · rw [hsame] at htr
    rw [jsGet_truthy_mono c (searchKey kw) t1 t2 hle hmiss] at htr
    exact absurd htr (by simp)
  · rw [h1] at htr ⊢
    simp only at htr ⊢
    rw [jsGet_set_same] at htr
    by_cases hwin : t2 < t1 + stdTTL
    · rw [if_pos hwin] at htr
      have hget : ((c.set (searchKey kw) v t1).jsGet (searchKey kw) t2)
          = v := by rw [jsGet_set_same]; simp [hwin]
      have h2 := search_hit upstream k kw
        (c.set (searchKey kw) v t1) t2 hkw (by rw [hget]; exact htr)
      rw [h2, hget]
      exact ⟨rfl, rfl, rfl⟩
    · rw [if_neg hwin] at htr
      exact absurd htr (by simp [Json.truthy])

/-! ### Claims -/

/-- C1, counterexample to the claim as stated: the cache-hit test is a
truthiness test, so after a first /news/search request that cached the
falsy articles value of an upstream response (here the empty string),
the cache holds an unexpired entry for the derived key, yet the repeated
identical request one second later calls upstream again: two upstream
calls across the pair, not one. -/
theorem claim_C1_counterexample :
    Cache.get (searchHandler emptyStrUpstream "k" (some "x") [] 0).cache
      (searchKey "x") 1 = some (.str "")
    ∧ (searchHandler emptyStrUpstream "k" (some "x")
        [] 0).upstreamCalls.length = 1
    ∧ (searchHandler emptyStrUpstream "k" (some "x")
        (searchHandler emptyStrUpstream "k" (some "x") [] 0).cache
        1).upstreamCalls.length = 1 :=
  ⟨rfl, rfl, rfl⟩

/-- C1 (amended): for every endpoint and fixed query, if the cache holds
an unexpired entry with a truthy value (every array payload is truthy)
for the derived key, the handler returns that stored value verbatim and
calls no upstream; and repeating an identical request within the TTL
window after a miss that left a truthy cached value yields the identical
response with exactly one upstream call across the pair. -/
theorem claim_C1_cache_hit :
    (∀ (upstream : Upstream) (k : String) (n : Option String) (c : Cache)
       (now : Nat), (c.jsGet (newsKey n) now).truthy = true →
       newsHandler upstream k n c now =
         ⟨⟨200, c.jsGet (newsKey n) now⟩, c, []⟩)
  ∧ (∀ (upstream : Upstream) (k : String) (title author : Option String)
       (c : Cache) (now : Nat),
       (c.jsGet (findKey title author) now).truthy = true →
       findHandler upstream k title author c now =
         ⟨⟨200, .obj [("articles", c.jsGet (findKey title author) now)]⟩,
          c, []⟩)
  ∧ (∀ (upstream : Upstream) (k kw : String) (c : Cache) (now : Nat),
       kw ≠ "" → (c.jsGet (searchKey kw) now).truthy = true →
       searchHandler upstream k (some kw) c now =
         ⟨⟨200, .obj [("articles", c.jsGet (searchKey kw) now)]⟩, c, []⟩)
  ∧ (∀ (upstream : Upstream) (k : String) (n : Option String) (c : Cache)
       (t1 t2 : Nat), (c.jsGet (newsKey n) t1).truthy = false → t1 ≤ t2 →
       ((newsHandler upstream k n c t1).cache.jsGet (newsKey n)
          t2).truthy = true →
       (newsHandler upstream k n (newsHandler upstream k n c t1).cache
           t2).response = (newsHandler upstream k n c t1).response
       ∧ (newsHandler upstream k n (newsHandler upstream k n c t1).cache
           t2).upstreamCalls = []
       ∧ (newsHandler upstream k n c t1).upstreamCalls.length = 1)
  ∧ (∀ (upstream : Upstream) (k : String) (title author : Option String)
       (c : Cache) (t1 t2 : Nat),
       (c.jsGet (findKey title author) t1).truthy = false → t1 ≤ t2 →
       ((findHandler upstream k title author c t1).cache.jsGet
          (findKey title author) t2).truthy = true →
       (findHandler upstream k title author
           (findHandler upstream k title author c t1).cache t2).response
         = (findHandler upstream k title author c t1).response
       ∧ (findHandler upstream k title author
           (findHandler upstream k title author c t1).cache
           t2).upstreamCalls = []
       ∧ (findHandler upstream k title author c
           t1).upstreamCalls.length = 1)
  ∧ (∀ (upstream : Upstream) (k kw : String) (c : Cache) (t1 t2 : Nat),
       kw ≠ "" → (c.jsGet (searchKey kw) t1).truthy = false → t1 ≤ t2 →
       ((searchHandler upstream k (some kw) c t1).cache.jsGet
          (searchKey kw) t2).truthy = true →
       (searchHandler upstream k (some kw)
           (searchHandler upstream k (some kw) c t1).cache t2).response
         = (searchHandler upstream k (some kw) c t1).response
       ∧ (searchHandler upstream k (some kw)
           (searchHandler upstream k (some kw) c t1).cache
           t2).upstreamCalls = []
       ∧ (searchHandler upstream k (some kw) c
           t1).upstreamCalls.length = 1) :=
  ⟨news_hit, find_hit,
   fun upstream k kw c now hkw h => search_hit upstream k kw c now hkw h,
   news_pair, find_pair,
   fun upstream k kw c t1 t2 hkw hmiss hle htr =>
     search_pair upstream k kw c t1 t2 hkw hmiss hle htr⟩

/-- C1, witness: the amended theorem exercised at concrete inputs, one
instance per conjunct, every hypothesis discharged by evaluation. -/
theorem claim_C1_witness :
    (newsHandler sampleUpstream "k" none newsHitCache 0 =
       ⟨⟨200, Cache.jsGet newsHitCache (newsKey none) 0⟩,
        newsHitCache, []⟩)
  ∧ (findHandler sampleUpstream "k" (some "T") none findHitCache 0 =
       ⟨⟨200, .obj [("articles",
           Cache.jsGet findHitCache (findKey (some "T") none) 0)]⟩,
        findHitCache, []⟩)
  ∧ (searchHandler sampleUpstream "k" (some "x") searchHitCache 0 =
       ⟨⟨200, .obj [("articles",
           Cache.jsGet searchHitCache (searchKey "x") 0)]⟩,
        searchHitCache, []⟩)
  ∧ ((newsHandler sampleUpstream "k" none
        (newsHandler sampleUpstream "k" none [] 0).cache 1).response
       = (newsHandler sampleUpstream "k" none [] 0).response
     ∧ (newsHandler sampleUpstream "k" none
         (newsHandler sampleUpstream "k" none [] 0).cache
         1).upstreamCalls = []
     ∧ (newsHandler sampleUpstream "k" none [] 0).upstreamCalls.length
         = 1)
  ∧ ((findHandler sampleUpstream "k" (some "T") none
        (findHandler sampleUpstream "k" (some "T") none [] 0).cache
        1).response
       = (findHandler sampleUpstream "k" (some "T") none [] 0).response
     ∧ (findHandler sampleUpstream "k" (some "T") none
         (findHandler sampleUpstream "k" (some "T") none [] 0).cache
         1).upstreamCalls = []
     ∧ (findHandler sampleUpstream "k" (some "T") none
         [] 0).upstreamCalls.length = 1)
  ∧ ((searchHandler sampleUpstream "k" (some "x")
        (searchHandler sampleUpstream "k" (some "x") [] 0).cache
        1).response
       = (searchHandler sampleUpstream "k" (some "x") [] 0).response
     ∧ (searchHandler sampleUpstream "k" (some "x")
         (searchHandler sampleUpstream "k" (some "x") [] 0).cache
         1).upstreamCalls = []
     ∧ (searchHandler sampleUpstream "k" (some "x")
         [] 0).upstreamCalls.length = 1) :=
  ⟨claim_C1_cache_hit.1 sampleUpstream "k" none newsHitCache 0 (by rfl),
   claim_C1_cache_hit.2.1 sampleUpstream "k" (some "T") none
     findHitCache 0 (by rfl),
   claim_C1_cache_hit.2.2.1 sampleUpstream "k" "x" searchHitCache 0
     (by decide) (by rfl),
   claim_C1_cache_hit.2.2.2.1 sampleUpstream "k" none [] 0 1 (by rfl)
     (by decide) (by rfl),
   claim_C1_cache_hit.2.2.2.2.1 sampleUpstream "k" (some "T") none [] 0 1
     (by rfl) (by decide) (by rfl),
   claim_C1_cache_hit.2.2.2.2.2 sampleUpstream "k" "x" [] 0 1
     (by decide) (by rfl) (by decide) (by rfl)⟩

/-- C2, counterexample to the claim as stated: a request whose keyword
parameter is present but empty does take the 400 branch, so it is not
the case that every request with keyword present avoids it. -/
theorem claim_C2_counterexample :
    searchHandler failUpstream "k" (some "") [] 0 =
      ⟨⟨400, .obj [("message", .str "Missing search query")]⟩, [], []⟩ :=
  rfl

/-- C2 (amended): with the keyword absent, GET /news/search responds 400
with the fixed body, leaves the cache unchanged and calls no upstream;
with the keyword present and nonempty, the 400 branch is never taken. -/
theorem claim_C2_missing_keyword :
    (∀ (upstream : Upstream) (k : String) (c : Cache) (now : Nat),
       searchHandler upstream k none c now =
         ⟨⟨400, .obj [("message", .str "Missing search query")]⟩, c, []⟩)
  ∧ (∀ (upstream : Upstream) (k kw : String) (c : Cache) (now : Nat),
       kw ≠ "" →
       (searchHandler upstream k (some kw) c now).response.status ≠ 400) :=
  ⟨search_guard_absent, search_status⟩

/-- C2, witness: the nonempty-keyword conjunct exercised at a concrete
input. -/
theorem claim_C2_witness :
    ("a" : String) ≠ ""
    ∧ (searchHandler failUpstream "k" (some "a")
        [] 0).response.status ≠ 400 :=
  ⟨by decide,
   claim_C2_missing_keyword.2 failUpstream "k" "a" [] 0 (by decide)⟩

/-- C3 (confirmed): the cache keys are the plain concatenations news-n,
news-find-title-author and news-search-keyword, an absent title or
author rendering as the literal text undefined, and any two queries
whose parameters stringify identically derive the same key. -/
theorem claim_C3_cache_keys :
    (∀ s : String, newsKey (some s) = "news-" ++ s)
  ∧ (∀ t a : String,
       findKey (some t) (some a) = "news-find-" ++ t ++ "-" ++ a)
  ∧ (∀ t : String, findKey (some t) none = "news-find-" ++ t ++ "-undefined")
  ∧ (∀ a : String, findKey none (some a) = "news-find-undefined-" ++ a)
  ∧ findKey none none = "news-find-undefined-undefined"
  ∧ (∀ kw : String, searchKey kw = "news-search-" ++ kw)
  ∧ (∀ t1 t2 a1 a2 : Option String, templateStr t1 = templateStr t2 →
       templateStr a1 = templateStr a2 → findKey t1 a1 = findKey t2 a2)
  ∧ (∀ n1 n2 : Option String, n1.getD "10" = n2.getD "10" →
       newsKey n1 = newsKey n2) := by
  refine ⟨fun s => rfl, fun t a => rfl, fun t => ?_, fun a => rfl, rfl,
    fun kw => rfl, fun t1 t2 a1 a2 h1 h2 => ?_, fun n1 n2 h => ?_⟩
  · show ("news-find-" ++ t ++ "-") ++ "undefined" = _
    rw [String.append_assoc]
    rfl
  · unfold findKey
    rw [h1, h2]
  · unfold newsKey
    rw [h]

/-- C3, witness: the two congruence conjuncts exercised at concrete
inputs, showing the conflation of an absent parameter with the literal
text undefined, and of an absent n with the text 10. -/
theorem claim_C3_witness :
    (templateStr none = templateStr (some "undefined")
     ∧ findKey none none = findKey (some "undefined") none)
  ∧ ((none : Option String).getD "10" = (some "10").getD "10"
     ∧ newsKey none = newsKey (some "10")) :=
  ⟨⟨rfl, claim_C3_cache_keys.2.2.2.2.2.2.1 none (some "undefined")
      none none rfl rfl⟩,
   ⟨rfl, claim_C3_cache_keys.2.2.2.2.2.2.2 none (some "10") rfl⟩⟩

/-- C4 (confirmed): on a successful /news run, every article in the
returned and cached list is an object with exactly the six documented
fields, each taken from the upstream record, the source restricted to
name and url; every other upstream field is dropped. -/
theorem claim_C4_news_reshaping :
    (∀ a m : Json, mapArticle a = some m →
       ∃ t d u i p sn su src,
         a.getField "title" = some t
         ∧ a.getField "description" = some d
         ∧ a.getField "url" = some u
         ∧ a.getField "image" = some i
         ∧ a.getField "publishedAt" = some p
         ∧ a.getField "source" = some src
         ∧ src.getField "name" = some sn
         ∧ src.getField "url" = some su
         ∧ m = .obj [("title", t), ("description", d), ("url", u),
                     ("image", i), ("publishedAt", p),
                     ("source", .obj [("name", sn), ("url", su)])])
  ∧ (∀ (upstream : Upstream) (k : String) (n : Option String) (c : Cache)
       (now : Nat) (d : Json) (l mapped : List Json),
       (c.jsGet (newsKey n) now).truthy = false →
       upstream (newsRequest k n) = .ok d →
       d.getField "articles" = some (.arr l) →
       l.mapM mapArticle = some mapped →
       newsHandler upstream k n c now =
         ⟨⟨200, .arr mapped⟩, c.set (newsKey n) (.arr mapped) now,
          [newsRequest k n]⟩) :=
  ⟨mapArticle_shape, news_miss_success⟩

/-- C4, witness: the reshaping of `sampleArticle`, whose extra content
field is dropped, and the full /news success run on it. -/
theorem claim_C4_witness :
    mapArticle sampleArticle = some sampleMapped
    ∧ (∃ t d u i p sn su src,
        sampleArticle.getField "title" = some t
        ∧ sampleArticle.getField "description" = some d
        ∧ sampleArticle.getField "url" = some u
        ∧ sampleArticle.getField "image" = some i
        ∧ sampleArticle.getField "publishedAt" = some p
        ∧ sampleArticle.getField "source" = some src
        ∧ src.getField "name" = some sn
        ∧ src.getField "url" = some su
        ∧ sampleMapped = .obj [("title", t), ("description", d),
            ("url", u), ("image", i), ("publishedAt", p),
            ("source", .obj [("name", sn), ("url", su)])])
    ∧ newsHandler sampleUpstream "k" (some "5") [] 0 =
        ⟨⟨200, .arr [sampleMapped]⟩,
         Cache.set [] (newsKey (some "5")) (.arr [sampleMapped]) 0,
         [newsRequest "k" (some "5")]⟩ :=
  ⟨rfl,
   claim_C4_news_reshaping.1 sampleArticle sampleMapped (by rfl),
   claim_C4_news_reshaping.2 sampleUpstream "k" (some "5") [] 0
     sampleData [sampleArticle] [sampleMapped]
     (by rfl) (by rfl) (by rfl) (by rfl)⟩

/-- C5 (confirmed): on a successful upstream response whose articles
field is an array, /news/find and /news/search return that array
unmodified, wrapped under an articles key, and cache the same array. -/
theorem claim_C5_raw_passthrough :
    (∀ (upstream : Upstream) (k : String) (title author : Option String)
       (c : Cache) (now : Nat) (d : Json) (l : List Json),
       (c.jsGet (findKey title author) now).truthy = false →
       upstream (findRequest k title author) = .ok d →
       d.getField "articles" = some (.arr l) →
       findHandler upstream k title author c now =
         ⟨⟨200, .obj [("articles", .arr l)]⟩,
          c.set (findKey title author) (.arr l) now,
          [findRequest k title author]⟩)
  ∧ (∀ (upstream : Upstream) (k kw : String) (c : Cache) (now : Nat)
       (d : Json) (l : List Json), kw ≠ "" →
       (c.jsGet (searchKey kw) now).truthy = false →
       upstream (searchRequest k kw) = .ok d →
       d.getField "articles" = some (.arr l) →
       searchHandler upstream k (some kw) c now =
         ⟨⟨200, .obj [("articles", .arr l)]⟩,
          c.set (searchKey kw) (.arr l) now,
          [searchRequest k kw]⟩) :=
  ⟨fun upstream k title author c now d l hmiss hok hart =>
     find_miss_success upstream k title author c now d (.arr l)
       hmiss hok hart,
   fun upstream k kw c now d l hkw hmiss hok hart =>
     search_miss_success upstream k kw c now d (.arr l)
       hkw hmiss hok hart⟩

/-- C5, witness: both endpoints run on `sampleUpstream`; the upstream
article keeps its extra content field, unreshaped. -/
theorem claim_C5_witness :
    findHandler sampleUpstream "k" (some "T") none [] 0 =
      ⟨⟨200, .obj [("articles", .arr [sampleArticle])]⟩,
       Cache.set [] (findKey (some "T") none) (.arr [sampleArticle]) 0,
       [findRequest "k" (some "T") none]⟩
    ∧ ("x" : String) ≠ ""
    ∧ searchHandler sampleUpstream "k" (some "x") [] 0 =
        ⟨⟨200, .obj [("articles", .arr [sampleArticle])]⟩,
         Cache.set [] (searchKey "x") (.arr [sampleArticle]) 0,
         [searchRequest "k" "x"]⟩ :=
  ⟨claim_C5_raw_passthrough.1 sampleUpstream "k" (some "T") none [] 0
     sampleData [sampleArticle] (by rfl) (by rfl) (by rfl),
   by decide,
   claim_C5_raw_passthrough.2 sampleUpstream "k" "x" [] 0
     sampleData [sampleArticle] (by decide) (by rfl) (by rfl) (by rfl)⟩

/-- C6 (confirmed): on a cache miss whose upstream call throws, each
handler responds 500 with its fixed endpoint-specific body, exposes no
upstream detail, and leaves the cache unchanged. -/
theorem claim_C6_upstream_failure :
    (∀ (upstream : Upstream) (k : String) (n : Option String) (c : Cache)
       (now : Nat), (c.jsGet (newsKey n) now).truthy = false →
       upstream (newsRequest k n) = .error () →
       newsHandler upstream k n c now =
         ⟨⟨500, .obj [("message", .str "Something went wrong")]⟩, c,
          [newsRequest k n]⟩)
  ∧ (∀ (upstream : Upstream) (k : String) (title author : Option String)
       (c : Cache) (now : Nat),
       (c.jsGet (findKey title author) now).truthy = false →
       upstream (findRequest k title author) = .error () →
       findHandler upstream k title author c now =
         ⟨⟨500, .obj [("message", .str "Failed to find news article")]⟩,
          c, [findRequest k title author]⟩)
  ∧ (∀ (upstream : Upstream) (k kw : String) (c : Cache) (now : Nat),
       kw ≠ "" → (c.jsGet (searchKey kw) now).truthy = false →
       upstream (searchRequest k kw) = .error () →
       searchHandler upstream k (some kw) c now =
         ⟨⟨500,
           .obj [("message", .str "Failed to fetch news articles")]⟩,
          c, [searchRequest k kw]⟩) :=
  ⟨news_miss_error, find_miss_error,
   fun upstream k kw c now hkw hmiss herr =>
     search_miss_error upstream k kw c now hkw hmiss herr⟩

/-- C6, witness: the three conjuncts exercised on the always-throwing
oracle with an empty cache. -/
theorem claim_C6_witness :
    newsHandler failUpstream "k" (some "5") [] 0 =
      ⟨⟨500, .obj [("message", .str "Something went wrong")]⟩, [],
       [newsRequest "k" (some "5")]⟩
    ∧ findHandler failUpstream "k" (some "T") none [] 0 =
        ⟨⟨500, .obj [("message", .str "Failed to find news article")]⟩,
         [], [findRequest "k" (some "T") none]⟩
    ∧ ("x" : String) ≠ ""
    ∧ searchHandler failUpstream "k" (some "x") [] 0 =
        ⟨⟨500,
          .obj [("message", .str "Failed to fetch news articles")]⟩,
         [], [searchRequest "k" "x"]⟩ :=
  ⟨claim_C6_upstream_failure.1 failUpstream "k" (some "5") [] 0
     (by rfl) (by rfl),
   claim_C6_upstream_failure.2.1 failUpstream "k" (some "T") none [] 0
     (by rfl) (by rfl),
   by decide,
   claim_C6_upstream_failure.2.2 failUpstream "k" "x" [] 0
     (by decide) (by rfl) (by rfl)⟩

/-- C7 (confirmed): /news with n absent behaves exactly as n set to the
text 10 (key news-10, upstream max 10); with n supplied, whatever its
text, no validation occurs, the response is always 200 or 500, never a
rejection, and any upstream request carries n as given, as does the
cache key. -/
theorem claim_C7_n_forwarding :
    (∀ (upstream : Upstream) (k : String) (c : Cache) (now : Nat),
       newsHandler upstream k none c now =
         newsHandler upstream k (some "10") c now)
  ∧ newsKey none = "news-10"
  ∧ (∀ k : String, newsRequest k none = newsRequest k (some "10"))
  ∧ (∀ s : String, newsKey (some s) = "news-" ++ s)
  ∧ (∀ k s : String, newsRequest k (some s) =
       ⟨"https://gnews.io/api/v4/top-headlines",
        [("token", k), ("lang", "en"), ("max", s)]⟩)
  ∧ (∀ (upstream : Upstream) (k : String) (n : Option String) (c : Cache)
       (now : Nat), (newsHandler upstream k n c now).response.status = 200
       ∨ (newsHandler upstream k n c now).response.status = 500)
  ∧ (∀ (upstream : Upstream) (k : String) (n : Option String) (c : Cache)
       (now : Nat), (newsHandler upstream k n c now).upstreamCalls = []
       ∨ (newsHandler upstream k n c now).upstreamCalls =
           [newsRequest k n]) :=
  ⟨news_default, rfl, fun _ => rfl, fun _ => rfl, fun _ _ => rfl,
   news_status, news_calls⟩

/-- C8, counterexample to the claim as stated: with the author parameter
present but equal to the empty string, the truthiness test sends the
`in` value title, not title&author= as the claim prescribes for every
present author. -/
theorem claim_C8_counterexample :
    (findHandler sampleUpstream "k" (some "T") (some "")
        [] 0).upstreamCalls =
      [⟨"https://gnews.io/api/v4/search",
        [("q", "T"), ("token", "k"), ("lang", "en"), ("max", "1"),
         ("in", "title")]⟩]
    ∧ ("title" : String) ≠ "title&author=" ++ "" :=
  ⟨rfl, by decide⟩

/-- C8 (amended): on a cache miss of /news/find with the title present,
the single upstream request carries exactly q = title, lang en, max 1,
and an `in` value of title when the author is absent or empty and
title&author=author when the author is nonempty; with the title absent
the q parameter is omitted and the rest is unchanged. -/
theorem claim_C8_find_upstream_params :
    (∀ (upstream : Upstream) (k t : String) (a : Option String)
       (c : Cache) (now : Nat),
       (c.jsGet (findKey (some t) a) now).truthy = false →
       (findHandler upstream k (some t) a c now).upstreamCalls =
         [⟨"https://gnews.io/api/v4/search",
           [("q", t), ("token", k), ("lang", "en"), ("max", "1"),
            ("in", match a with
                   | none => "title"
                   | some s => if s = "" then "title"
                               else "title&author=" ++ s)]⟩])
  ∧ (∀ (upstream : Upstream) (k : String) (a : Option String)
       (c : Cache) (now : Nat),
       (c.jsGet (findKey none a) now).truthy = false →
       (findHandler upstream k none a c now).upstreamCalls =
         [⟨"https://gnews.io/api/v4/search",
           [("token", k), ("lang", "en"), ("max", "1"),
            ("in", match a with
                   | none => "title"
                   | some s => if s = "" then "title"
                               else "title&author=" ++ s)]⟩]) := by
  constructor
  · intro upstream k t a c now hmiss
    rw [find_calls upstream k (some t) a c now hmiss]
    cases a with
    | none => rfl
    | some s =>
        by_cases hs : s = ""
        · subst hs; rfl
        · simp only [findRequest, (findInParam_rendering s).2.2 hs,
            if_neg hs]
          rfl
  · intro upstream k a c now hmiss
    rw [find_calls upstream k none a c now hmiss]
    cases a with
    | none => rfl
    | some s =>
        by_cases hs : s = ""
        · subst hs; rfl
        · simp only [findRequest, (findInParam_rendering s).2.2 hs,
            if_neg hs]
          rfl

/-- C8, witness: both conjuncts at concrete inputs, with a nonempty
author in the first. -/
theorem claim_C8_witness :
    (Cache.jsGet [] (findKey (some "T") (some "A")) 0).truthy = false
    ∧ (findHandler sampleUpstream "k" (some "T") (some "A")
        [] 0).upstreamCalls =
      [⟨"https://gnews.io/api/v4/search",
        [("q", "T"), ("token", "k"), ("lang", "en"), ("max", "1"),
         ("in", "title&author=A")]⟩]
    ∧ (findHandler sampleUpstream "k" none none [] 0).upstreamCalls =
      [⟨"https://gnews.io/api/v4/search",
        [("token", "k"), ("lang", "en"), ("max", "1"),
         ("in", "title")]⟩] :=
  ⟨by rfl,
   claim_C8_find_upstream_params.1 sampleUpstream "k" "T" (some "A")
     [] 0 (by rfl),
   claim_C8_find_upstream_params.2 sampleUpstream "k" none [] 0
     (by rfl)⟩

/-- C9 (confirmed): a present but empty keyword takes the
missing-parameter branch of /news/search, with the exact outcome of an
absent keyword: 400, fixed body, no cache change, no upstream call. -/
theorem claim_C9_empty_keyword :
    ∀ (upstream : Upstream) (k : String) (c : Cache) (now : Nat),
      searchHandler upstream k (some "") c now =
        ⟨⟨400, .obj [("message", .str "Missing search query")]⟩, c, []⟩
      ∧ searchHandler upstream k (some "") c now =
          searchHandler upstream k none c now :=
  fun _ _ _ _ => ⟨rfl, rfl⟩

/-- C10 (confirmed): cache keys are not disjoint across endpoints:
/news with n = find-X-Y derives the same key as /news/find with title X
and author Y, and after /news populates that key, the /news/find run is
served from the cache, with no upstream call, the /news payload wrapped
under articles. -/
theorem claim_C10_key_collision :
    newsKey (some "find-X-Y") = findKey (some "X") (some "Y")
    ∧ (findHandler sampleUpstream "k" (some "X") (some "Y")
        (newsHandler sampleUpstream "k" (some "find-X-Y") [] 0).cache
        10).upstreamCalls = []
    ∧ (findHandler sampleUpstream "k" (some "X") (some "Y")
        (newsHandler sampleUpstream "k" (some "find-X-Y") [] 0).cache
        10).response =
      ⟨200, .obj [("articles",
        (newsHandler sampleUpstream "k" (some "find-X-Y")
          [] 0).response.body)]⟩ :=
  ⟨rfl, rfl, rfl⟩

end PublicNewsApi
